import Mathlib

/-!
# Verification of the dhslab archive script (`slarchive.py`)

Shallow embedding of the archive/restore core of `slarchive.py`:
file enumeration (`get_files`), tarball member fingerprinting
(`get_tarball_md5sums`), the build-time integrity check
(`test_tarball_integrity`), the archive driver (`run_archive`) and the
restore driver (`run_restore`).

Modelling conventions:

* File contents are byte lists (`List Nat`); the md5 content hash
  (`hashlib.md5` via `calculate_file_md5sum` / `calculate_obj_md5sum`) is an
  external primitive and is passed in as an opaque function
  `hash : List Nat → String`.  Likewise the md5 of the compressed bundle
  bytes is an opaque function of the bundle's member list
  (`hashTarball : List TarMember → String`), folding together the external
  `tarfile`/`gzip` encoder and md5.
* The `tarfile` library is modelled by its contract: the tarball written by
  `create_tarball` holds exactly the added members, and re-opening it yields
  them back.
* Python runtime errors that the script can raise are explicit `Err`
  values: `sys.exit(1)` sites, the pandas `ValueError` for ragged
  DataFrame columns, the `TypeError` from `os.path.basename` applied to a
  list, the `TypeError` from testing substring membership in `None`, and
  the `UnboundLocalError` from reading `tarball` before assignment in
  `run_restore`.
* Filesystem side effects of a run are recorded as an ordered event trace.
-/

namespace Slarchive

/-! ## String helpers (os.path.basename / os.path.dirname on relative paths,
and Python's substring containment `needle in haystack`) -/

/-- Last component of a slash-separated relative path (`os.path.basename`). -/
def basenameStr (s : String) : String :=
  (s.splitOn "/").getLastD ""

/-- Everything before the last slash (`os.path.dirname`), `""` if none. -/
def dirnameStr (s : String) : String :=
  String.intercalate "/" ((s.splitOn "/").dropLast)

/-- Character-list matching: does the second list start with the first? -/
def charsMatch : List Char → List Char → Bool
  | [], _ => true
  | _ :: _, [] => false
  | a :: as, b :: bs => a = b && charsMatch as bs

/-- Does `needle` occur as a contiguous run somewhere in the list? -/
def hasSubstr (needle : List Char) : List Char → Bool
  | [] => charsMatch needle []
  | c :: rest => charsMatch needle (c :: rest) || hasSubstr needle rest

/-- Python's `needle in haystack` on strings. -/
def strContains (haystack needle : String) : Bool :=
  hasSubstr needle.data haystack.data

/-! ## The exclusion regexes of `get_files`

`slarchive.py` line 206 skips walk entries whose basename matches
`re.match(r'dhslabarchive.\S+.tar.gz', file)` or
`re.match(r'dhslabarchive.\S+.json', file)`.  Only three regex constructs
occur: literal characters, `.` (any character) and `\S+` (one or more
non-whitespace characters); `re.match` anchors at the start of the string
and allows a partial match.  `rmatch` is an existence-semantics matcher
for exactly that fragment. -/

/-- Tokens of the regex fragment used by the exclusion patterns. -/
inductive RTok where
  | lit (c : Char)
  | dot
  | nonspacePlus
deriving Repr, DecidableEq

/-- Literal tokens for a string. -/
def litToks (s : String) : List RTok :=
  s.data.map RTok.lit

/-- Matcher for the regex fragment, start-anchored, partial match allowed
(the semantics of Python's `re.match` used as a boolean). -/
def rmatch : List RTok → List Char → Bool
  | [], _ => true
  | _ :: _, [] => false
  | .lit c :: ts, x :: xs => x = c && rmatch ts xs
  | .dot :: ts, _ :: xs => rmatch ts xs
  | .nonspacePlus :: ts, x :: xs =>
      !x.isWhitespace && (rmatch ts xs || rmatch (.nonspacePlus :: ts) xs)
termination_by structural _ cs => cs

/-- `re.match(pattern, s)` as a boolean. -/
def reMatch (pat : List RTok) (s : String) : Bool :=
  rmatch pat s.data

/-- The pattern `dhslabarchive.\S+.tar.gz`. -/
def patBundle : List RTok :=
  litToks "dhslabarchive" ++ [.dot, .nonspacePlus, .dot] ++ litToks "tar"
    ++ [.dot] ++ litToks "gz"

/-- The pattern `dhslabarchive.\S+.json`. -/
def patJson : List RTok :=
  litToks "dhslabarchive" ++ [.dot, .nonspacePlus, .dot] ++ litToks "json"

/-- Is a walk entry's basename skipped by `get_files` (line 206)? -/
def excludedName (name : String) : Bool :=
  reMatch patBundle name || reMatch patJson name

/-! ## Errors

Each constructor corresponds to one failure site of `slarchive.py`. -/

inductive Err where
  /-- `get_files` lines 217-219: path is neither file nor directory. -/
  | exitInvalidPath
  /-- `pd.DataFrame` raises `ValueError` when the column lists have
  different lengths (`get_files` line 221). -/
  | valueErrorDataFrame
  /-- `run_archive` line 762: archive files already exist, no force/overwrite. -/
  | exitDuplicate
  /-- `run_archive` line 767: `os.path.basename(existing_json)` is applied to
  the glob result, which is a list, raising `TypeError`. -/
  | typeErrorBasenameList
  /-- `run_archive` line 775: `basename(...).split('.')[1]` with fewer than
  two dot-separated parts raises `IndexError`. -/
  | indexErrorSplit
  /-- `run_archive` line 791: directory yields zero eligible files. -/
  | exitNoFiles
  /-- `run_archive` line 796: total size above 2 TB. -/
  | exitSizeLimit
  /-- `run_archive` lines 809-814: build-time integrity check failed. -/
  | exitIntegrity
  /-- `transfer_to_s3` lines 342-344: bucket does not exist. -/
  | exitBucketMissing
  /-- `run_archive` lines 839-841 / 850-852: transfer raised, `sys.exit(1)`. -/
  | exitTransferFailed
  /-- `run_restore` lines 886-888: restore path is not a directory. -/
  | exitNotDir
  /-- `run_restore` line 893: `max()` of an empty glob list raises `ValueError`. -/
  | valueErrorMaxEmpty
  /-- `check_storage_class` line 335: `response['StorageClass']` raises
  `KeyError` when head_object reports no storage class. -/
  | keyErrorStorageClass
  /-- `run_restore` line 909: `'ongoing-request="false"' in restore_status`
  raises `TypeError` when `check_restore_status` returned `None`. -/
  | typeErrorInNone
  /-- `wait_for_restore` lines 711-715: no `Restore` field, `sys.exit(1)`. -/
  | exitNoRestoreStatus
  /-- Modelling artifact for `wait_for_restore`: the finite observation
  stream was exhausted; the source loops forever in this situation. -/
  | pollStreamEnded
  /-- `initiate_deep_archive_restore` lines 661-665: `ClientError`, exit. -/
  | exitRestoreError
  /-- `download_s3_object` lines 733-735: `ClientError`, exit. -/
  | exitDownloadError
  /-- `run_restore` lines 924-926: unsupported storage class. -/
  | exitUnsupportedClass
  /-- `run_restore` lines 928-934: RIS archive cannot be self-serviced. -/
  | exitRisRestore
  /-- `run_restore` line 937: the local variable `tarball` is read before its
  first assignment (line 944), raising `UnboundLocalError`. -/
  | unboundLocalTarball
deriving Repr, DecidableEq

/-! ## Data model -/

/-- One row of the enumeration DataFrame: relative path, byte size,
content fingerprint. -/
structure FileEntry where
  file : String
  size : Nat
  md5sum : String
deriving Repr, DecidableEq

/-- A member of the tar archive: entry name, recorded size, content bytes,
and whether it is a regular file (`member.isfile()`). -/
structure TarMember where
  name : String
  size : Nat
  content : List Nat
  isFile : Bool
deriving Repr, DecidableEq

/-- One file met by `os.walk`: basename (tested against the exclusion
patterns), path relative to the walk root, size and content. -/
structure WalkEntry where
  name : String
  relpath : String
  size : Nat
  content : List Nat
deriving Repr, DecidableEq

/-- What the archived path points at: a single regular file, a directory
(given as its full recursive walk), or neither. -/
inductive PathInput where
  | file (path : String) (size : Nat) (content : List Nat)
  | dir (walk : List WalkEntry)
  | invalid
deriving Repr, DecidableEq

/-- The JSON sidecar / database record built by `run_archive`
(lines 742-752 and 817-826). -/
structure ArchiveDict where
  id : String
  timestamp : String
  location : String
  filename : String
  localPath : String
  archivePath : String
  files : List String
  sizes : List Nat
  md5sums : List String
  tarballMD5sum : String
  username : String
deriving Repr, DecidableEq

/-! ## FileEnumerator: `get_files` (lines 189-222) -/

/-- `pd.DataFrame({'file': files, 'size': filesizes, 'md5sum': fileMd5sums})`:
pandas raises `ValueError` unless all columns have the same length. -/
def zip3Entries : List String → List Nat → List String → List FileEntry
  | f :: fs, s :: ss, m :: ms => ⟨f, s, m⟩ :: zip3Entries fs ss ms
  | _, _, _ => []

/-- DataFrame construction (line 221). -/
def mk_dataframe (files : List String) (sizes : List Nat) (md5s : List String) :
    Except Err (List FileEntry) :=
  if files.length = sizes.length ∧ sizes.length = md5s.length then
    .ok (zip3Entries files sizes md5s)
  else
    .error .valueErrorDataFrame

/-- `get_files` (lines 189-222).  Single-file case (lines 194-197): `files`
and `filesizes` get one element but `fileMd5sums` is left empty, so the
DataFrame constructor on line 221 raises.  Directory case (lines 199-215):
walk, skip basenames matching the exclusion patterns, record relative
path, size and content md5 for every other entry — including entries whose
name begins with a dot, which are not filtered anywhere. -/
def get_files (hash : List Nat → String) (p : PathInput) :
    Except Err (List FileEntry) :=
  match p with
  | .file path size _content =>
      mk_dataframe [path] [size] []
  | .dir walk =>
      let all_files := walk.filter (fun e => !(excludedName e.name))
      mk_dataframe (all_files.map (fun e => e.relpath))
        (all_files.map (fun e => e.size))
        (all_files.map (fun e => hash e.content))
  | .invalid => .error .exitInvalidPath

/-! ## IntegrityVerifier: `get_tarball_md5sums` (lines 233-244) and
`test_tarball_integrity` (lines 256-268) -/

/-- Re-read every regular-file member of the tarball and fingerprint it. -/
def get_tarball_md5sums (hash : List Nat → String) (tar : List TarMember) :
    List FileEntry :=
  (tar.filter (fun m => m.isFile)).map (fun m => ⟨m.name, m.size, hash m.content⟩)

/-- Python `set(a) == set(b)` on string lists. -/
def pySetEq (a b : List String) : Bool :=
  a.all (fun x => decide (x ∈ b)) && b.all (fun x => decide (x ∈ a))

/-- `test_tarball_integrity` (lines 256-268): compare the *set* of member
fingerprints of the bundle with the *set* of recorded fingerprints.
(The `isinstance(md5sums, list)` guard on lines 258-259 is always satisfied
in the typed model.) -/
def test_tarball_integrity (hash : List Nat → String) (tar : List TarMember)
    (md5sums : List String) : Bool :=
  pySetEq ((get_tarball_md5sums hash tar).map (fun e => e.md5sum)) md5sums

/-! ## BundleBuilder: `create_tarball` (lines 247-253)

`create_tarball` re-reads each listed file from disk and streams it into the
tarball under its relative path.  The disk reads are resolved against the
enumerated directory. -/

/-- Size of the file currently on disk at relative path `rp`. -/
def lookupSize (input : PathInput) (rp : String) : Nat :=
  match input with
  | .dir walk =>
      match walk.find? (fun e => e.relpath = rp) with
      | some e => e.size
      | none => 0
  | _ => 0

/-- Content of the file currently on disk at relative path `rp`. -/
def lookupContent (input : PathInput) (rp : String) : List Nat :=
  match input with
  | .dir walk =>
      match walk.find? (fun e => e.relpath = rp) with
      | some e => e.content
      | none => []
  | _ => []

/-- The member list of the tarball built by `create_tarball` from the
enumerated relative paths. -/
def create_tarball (input : PathInput) (files : List String) : List TarMember :=
  files.map (fun f => ⟨f, lookupSize input f, lookupContent input f, true⟩)

/-- `os.path.isfile(os.path.join(filepath, file))` during the deletion loop
(lines 857-860). -/
def isLocalFile (input : PathInput) (rp : String) : Bool :=
  match input with
  | .dir walk => walk.any (fun e => e.relpath = rp)
  | _ => false

/-- The files still on disk under the archived directory after the deletion
loop removed `removed` (everything the walk saw, minus the removed ones). -/
def remainingAfter (input : PathInput) (removed : List String) : List String :=
  match input with
  | .dir walk => (walk.map (fun e => e.relpath)).filter (fun rp => !(removed.contains rp))
  | _ => []

/-- The empty-directory sweep of lines 862-870: `os.walk(filepath,
topdown=False)` visits each subdirectory once as a child of its parent,
deepest roots first; a subdirectory whose basename does not start with a
dot is removed when `os.listdir` shows it empty.  `todo` is the list of all
subdirectory relative paths in that bottom-up visit order, `live` the ones
not yet removed, `remaining` the files still on disk.  Returns the removed
directories in removal order. -/
def removeEmptyDirs (remaining : List String) : List String → List String → List String
  | [], _ => []
  | d :: todo, live =>
      if !((basenameStr d).startsWith ".")
          && remaining.all (fun f => dirnameStr f != d)
          && live.all (fun d2 => dirnameStr d2 != d) then
        d :: removeEmptyDirs remaining todo (live.erase d)
      else
        removeEmptyDirs remaining todo live

/-- `fileDf['size'].sum()`. -/
def sumSizes (l : List FileEntry) : Nat :=
  (l.map (fun e => e.size)).sum

/-! ## TransferBackend: `transfer_to_s3` (lines 340-384) -/

/-- Observable S3 state for one upload: bucket existence (`check_s3_bucket`),
object existence (`check_s3_object`), and whether `upload_file` succeeds. -/
structure S3Env where
  bucketExists : Bool
  objectExists : Bool
  uploadOk : Bool
deriving Repr, DecidableEq

/-- `transfer_to_s3`: `sys.exit(1)` when the bucket is missing; returns
`None` (without uploading) when the object exists and overwrite is off;
returns `False` when the upload raises `ClientError`; `True` on success.
`run_archive` calls it with `overwrite` left at its default `False` and
ignores the returned value. -/
def transfer_to_s3 (s3 : S3Env) (overwrite : Bool) : Except Err (Option Bool) :=
  if !s3.bucketExists then .error .exitBucketMissing
  else if s3.objectExists && !overwrite then .ok none
  else if s3.uploadOk then .ok (some true)
  else .ok (some false)

/-! ## `run_archive` (lines 737-877) -/

/-- Filesystem/backend side effects of one archive run, in program order. -/
inductive Ev where
  /-- `create_tarball` wrote the bundle file (line 803). -/
  | createTarball (members : List TarMember)
  /-- `transfer_to_s3` returned (line 835); the payload is its return value,
  `some true` meaning the object was actually uploaded. -/
  | uploadToS3 (result : Option Bool)
  /-- `globus_transfer_to_archive` completed successfully (line 846). -/
  | globusTransfer
  /-- `os.remove(tarball)` (lines 812, 837, 848). -/
  | removeTarball
  /-- `os.remove` of one enumerated source file (line 860). -/
  | removeFile (relpath : String)
  /-- `os.rmdir` of one emptied subdirectory (line 870). -/
  | rmdir (relpath : String)
  /-- The JSON sidecar was written (lines 873-875). -/
  | writeJson (name : String)
deriving Repr, DecidableEq

/-- Environment of one `run_archive` call: the opaque hash primitives, the
scalar configuration (`config`, `archivepath`, timestamp, username), the
glob result for existing sidecars (line 758), the freshly generated unique
id (line 783), what the archived path contains, the subdirectory list for
the deletion sweep, and the backend behaviour. -/
structure ArchiveEnv where
  hash : List Nat → String
  hashTarball : List TarMember → String
  timestamp : String
  username : String
  mode : String
  archivepath : String
  existingJson : List String
  freshId : String
  filepathAbs : String
  filepathBase : String
  parentDir : String
  input : PathInput
  tarMembers : List TarMember
  dirs : List String
  s3 : S3Env
  globusOk : Bool

deriving instance DecidableEq for Except

/-- Result of one `run_archive` call: the returned `archive_dict` or the
error it died with, plus the ordered side-effect trace. -/
structure ArchiveOutcome where
  result : Except Err ArchiveDict
  trace : List Ev
deriving Repr, DecidableEq

/-- The transfer section of `run_archive` (lines 828-852), returning the
events it adds.  In glacier mode the return value of `transfer_to_s3` is
ignored and the local tarball is deleted regardless; only a `sys.exit`
inside the transfer stops the run. -/
def transfer_phase (env : ArchiveEnv) : Except Err (List Ev) :=
  if env.mode = "glacier" then
    match transfer_to_s3 env.s3 false with
    | .error e => .error e
    | .ok r => .ok [Ev.uploadToS3 r, Ev.removeTarball]
  else if env.mode = "ris_archive" then
    if env.globusOk then .ok [Ev.globusTransfer, Ev.removeTarball]
    else .error .exitTransferFailed
  else .ok []

/-- Lines 806-877 of `run_archive`, shared by the tarball-flag and
directory branches: tarball md5 (line 806), build-time integrity check
(lines 809-814, deleting the bundle unless `keep`), `archive_dict`
assembly (lines 817-826), the dry-run early return (lines 828-830), the
transfer (lines 832-852), the default deletion of the source files and
emptied subdirectories (lines 854-870), and the sidecar write
(lines 872-875). -/
def run_archive_rest (env : ArchiveEnv) (uid filename localPath : String)
    (fileDf : List FileEntry) (members : List TarMember) (trace0 : List Ev)
    (keep : Bool) : ArchiveOutcome :=
  let tarball_md5sum := env.hashTarball members
  if test_tarball_integrity env.hash members (fileDf.map (fun e => e.md5sum)) = false then
    ⟨.error .exitIntegrity, trace0 ++ (if keep then [] else [Ev.removeTarball])⟩
  else
    let dict : ArchiveDict :=
      ⟨uid, env.timestamp, env.mode, filename, localPath, env.archivepath,
        fileDf.map (fun e => e.file), fileDf.map (fun e => e.size),
        fileDf.map (fun e => e.md5sum), tarball_md5sum, env.username⟩
    if env.mode = "dry-run" then ⟨.ok dict, trace0⟩
    else
      match transfer_phase env with
      | .error e => ⟨.error e, trace0⟩
      | .ok trace1 =>
          let cleanup :=
            if keep then []
            else
              let removalPaths :=
                (fileDf.map (fun e => e.file)).filter (fun f => isLocalFile env.input f)
              removalPaths.map Ev.removeFile
                ++ (removeEmptyDirs (remainingAfter env.input removalPaths)
                      env.dirs env.dirs).map Ev.rmdir
          ⟨.ok dict, trace0 ++ trace1 ++ cleanup
            ++ [Ev.writeJson ("dhslabarchive." ++ uid ++ ".json")]⟩

/-- `run_archive` (lines 737-877).  Guard against existing sidecars
(lines 757-768): without force/overwrite, exit; with overwrite,
`os.path.basename` is applied to the glob *list*, raising `TypeError`
before anything else happens.  Tarball-flag branch (lines 771-780):
unique id from the filename, member fingerprints from the tarball itself.
Directory branch (lines 782-803): fresh 20-character id, enumeration,
empty-set and 2 TB guards, then the bundle build. -/
def run_archive (env : ArchiveEnv) (tarballFlag force overwrite keep : Bool) :
    ArchiveOutcome :=
  if env.existingJson ≠ [] ∧ ¬force ∧ ¬overwrite then
    ⟨.error .exitDuplicate, []⟩
  else if env.existingJson ≠ [] ∧ overwrite then
    ⟨.error .typeErrorBasenameList, []⟩
  else if tarballFlag then
    match (env.filepathBase.splitOn ".").get? 1 with
    | none => ⟨.error .indexErrorSplit, []⟩
    | some uid =>
        run_archive_rest env uid env.filepathBase env.parentDir
          (get_tarball_md5sums env.hash env.tarMembers) env.tarMembers [] keep
  else
    match get_files env.hash env.input with
    | .error e => ⟨.error e, []⟩
    | .ok fileDf =>
        if fileDf.length = 0 then ⟨.error .exitNoFiles, []⟩
        else if 2000000000000 < sumSizes fileDf then ⟨.error .exitSizeLimit, []⟩
        else
          let members := create_tarball env.input (fileDf.map (fun e => e.file))
          run_archive_rest env env.freshId
            ("dhslabarchive." ++ env.freshId ++ ".tar.gz") env.filepathAbs
            fileDf members [Ev.createTarball members] keep

/-! ## `run_restore` (lines 884-953) and its helpers -/

/-- Backend calls made by one restore run, in program order. -/
inductive REv where
  /-- `check_storage_class` head_object (line 901). -/
  | checkStorageClass
  /-- `check_restore_status` head_object (line 906). -/
  | checkRestoreStatus
  /-- `initiate_deep_archive_restore` restore_object (line 911). -/
  | initiateRestore
  /-- One `check_restore_status` inside `wait_for_restore` (line 701),
  with the `Restore` field it observed. -/
  | poll (status : Option String)
  /-- `download_s3_object` fetched the bundle to local disk (line 917/922). -/
  | download
  /-- Tarball extraction.  Never emitted: the `extractall` call of
  lines 950-951 is commented out in the source. -/
  | extract
  /-- Comparison of the recomputed bundle md5 with the manifest field.
  Never emitted: line 937 raises before the comparison on line 939. -/
  | md5Compare
deriving Repr, DecidableEq

/-- The literal `'ongoing-request="false"'` tested on lines 704 and 909. -/
def ongoingFalse : String := "ongoing-request=\"false\""

/-- `wait_for_restore` (lines 687-717) driven by the finite stream of
`Restore`-field observations its successive `check_restore_status` calls
return: a status containing `ongoing-request="false"` ends the loop, a
missing status exits, anything else polls again.  An exhausted stream maps
to `Err.pollStreamEnded` (the source would keep polling). -/
def wait_for_restore : List (Option String) → Except Err Unit × List REv
  | [] => (.error .pollStreamEnded, [])
  | none :: _ => (.error .exitNoRestoreStatus, [REv.poll none])
  | some s :: rest =>
      if strContains s ongoingFalse then (.ok (), [REv.poll (some s)])
      else
        let r := wait_for_restore rest
        (r.1, REv.poll (some s) :: r.2)

/-- Environment of one `run_restore` call: whether the target path is a
directory, the glob result for sidecars (line 891), the parsed content of
the most recently created sidecar (lines 893-897), the object's storage
class as reported by head_object (`none` when the response carries no
`StorageClass` field), the `Restore` field at the initial
`check_restore_status` (line 906), whether `restore_object` succeeds, the
observation stream for `wait_for_restore`, and whether the download
succeeds. -/
structure RestoreEnv where
  isDir : Bool
  jsons : List String
  dict : ArchiveDict
  storageClass : Option String
  restoreStatus : Option String
  initiateOk : Bool
  polls : List (Option String)
  downloadOk : Bool
deriving Repr, DecidableEq

/-- `run_restore` (lines 884-953).  After the per-location download logic,
line 937 reads the local variable `tarball`, which is first assigned only
on line 944, so every branch that falls through to line 937 dies with
`UnboundLocalError`; the md5 comparison (line 939), the member-level
integrity check (line 945) and the extraction (lines 950-951, themselves
commented out) are unreachable. -/
def run_restore (env : RestoreEnv) : Except Err Unit × List REv :=
  if !env.isDir then (.error .exitNotDir, [])
  else if env.jsons = [] then (.error .valueErrorMaxEmpty, [])
  else if env.dict.location = "glacier" then
    match env.storageClass with
    | none => (.error .keyErrorStorageClass, [REv.checkStorageClass])
    | some sc =>
        if sc = "DEEP_ARCHIVE" ∨ sc = "GLACIER" then
          match env.restoreStatus with
          | none =>
              (.error .typeErrorInNone, [REv.checkStorageClass, REv.checkRestoreStatus])
          | some rs =>
              let needInit := strContains rs ongoingFalse
              if needInit && !env.initiateOk then
                (.error .exitRestoreError,
                  [REv.checkStorageClass, REv.checkRestoreStatus, REv.initiateRestore])
              else
                let trace1 := [REv.checkStorageClass, REv.checkRestoreStatus]
                  ++ (if needInit then [REv.initiateRestore] else [])
                let w := wait_for_restore env.polls
                match w.1 with
                | .error e => (.error e, trace1 ++ w.2)
                | .ok _ =>
                    if env.downloadOk then
                      (.error .unboundLocalTarball, trace1 ++ w.2 ++ [REv.download])
                    else (.error .exitDownloadError, trace1 ++ w.2)
        else if sc = "STANDARD_IA" ∨ sc = "STANDARD" ∨ sc = "GLACIER_IR" then
          if env.downloadOk then
            (.error .unboundLocalTarball, [REv.checkStorageClass, REv.download])
          else (.error .exitDownloadError, [REv.checkStorageClass])
        else (.error .exitUnsupportedClass, [REv.checkStorageClass])
  else if env.dict.location = "ris_archive" then
    (.error .exitRisRestore, [])
  else
    (.error .unboundLocalTarball, [])

/-! ## Concrete instances used to evaluate the model on specific inputs

The md5 primitives are external; for concrete runs any computable stand-in
serves, since the model only ever compares hash outputs for equality. -/

/-- Stand-in content hash for concrete evaluations. -/
def demoHash (c : List Nat) : String :=
  "md5:" ++ toString c

/-- Stand-in bundle-file hash for concrete evaluations. -/
def demoHashTar (ms : List TarMember) : String :=
  "tar:" ++ toString (ms.map (fun m => m.name))

/-- A directory with one visible file, one hidden file and a stale bundle
artifact, as seen by `os.walk`. -/
def sampleWalk : List WalkEntry :=
  [⟨"a.txt", "a.txt", 3, [1, 2, 3]⟩,
   ⟨".hidden", ".hidden", 2, [9, 9]⟩,
   ⟨"dhslabarchive.OLDID.tar.gz", "dhslabarchive.OLDID.tar.gz", 5, [0]⟩]

/-- Archive environment for a fresh single-file directory going to glacier. -/
def c10Env : ArchiveEnv where
  hash := demoHash
  hashTarball := demoHashTar
  timestamp := "2025-01-02 03:04:05"
  username := "alice"
  mode := "glacier"
  archivepath := "dhs-lab-archive-1"
  existingJson := []
  freshId := "Id0123456789abcdefgh"
  filepathAbs := "/data/project"
  filepathBase := "project"
  parentDir := "/data"
  input := .dir [⟨"a.txt", "a.txt", 3, [1, 2, 3]⟩]
  tarMembers := []
  dirs := []
  s3 := ⟨true, false, true⟩
  globusOk := true

/-- Archive environment whose directory holds a single file above the 2 TB
ceiling. -/
def c5Env : ArchiveEnv :=
  { c10Env with input := .dir [⟨"big.bin", "big.bin", 2000000000001, []⟩] }

/-- Archive environment for a directory that already holds a sidecar. -/
def c9Env : ArchiveEnv :=
  { c10Env with existingJson := ["/data/project/dhslabarchive.OLDID.json"] }

/-- The sidecar written by the `c10Env` archive run. -/
def c1Dict : ArchiveDict where
  id := "Id0123456789abcdefgh"
  timestamp := "2025-01-02 03:04:05"
  location := "glacier"
  filename := "dhslabarchive.Id0123456789abcdefgh.tar.gz"
  localPath := "/data/project"
  archivePath := "dhs-lab-archive-1"
  files := ["a.txt"]
  sizes := [3]
  md5sums := [demoHash [1, 2, 3]]
  tarballMD5sum := demoHashTar [⟨"a.txt", 3, [1, 2, 3], true⟩]
  username := "alice"

/-- Restore environment: the `c1Dict` archive brought back from a bucket
where the object now sits in the STANDARD class, with a working download. -/
def c1RestoreEnv : RestoreEnv where
  isDir := true
  jsons := ["/restore/here/dhslabarchive.Id0123456789abcdefgh.json"]
  dict := c1Dict
  storageClass := some "STANDARD"
  restoreStatus := none
  initiateOk := true
  polls := []
  downloadOk := true

/-- Restore environment for a bundle in the DEEP_ARCHIVE class on which no
restore was ever requested: head_object carries no `Restore` field. -/
def c7Env : RestoreEnv :=
  { c1RestoreEnv with storageClass := some "DEEP_ARCHIVE", restoreStatus := none }

/-- A tarball holding two distinct files with identical contents. -/
def c4DupTar : List TarMember :=
  [⟨"a.bin", 1, [7], true⟩, ⟨"b.bin", 1, [7], true⟩]

/-- Enumeration-recorded fingerprints in which the repeated fingerprint
appears only once. -/
def c4Recorded : List String :=
  [demoHash [7]]

/-! ## Helper lemmas -/

/-- Zipping three mapped columns of one list recovers a single map. -/
theorem zip3Entries_map {α : Type} (l : List α) (f : α → String) (g : α → Nat)
    (k : α → String) :
    zip3Entries (l.map f) (l.map g) (l.map k)
      = l.map (fun x => ⟨f x, g x, k x⟩) := by
  induction l with
  | nil => rfl
  | cons a t ih => simp [zip3Entries, ih]

/-- On a directory, `get_files` returns one row per non-excluded walk entry,
in walk order. -/
theorem get_files_dir_eq (hash : List Nat → String) (walk : List WalkEntry) :
    get_files hash (PathInput.dir walk) =
      .ok ((walk.filter (fun e => !(excludedName e.name))).map
            (fun e => ⟨e.relpath, e.size, hash e.content⟩)) := by
  unfold get_files mk_dataframe
  dsimp only
  rw [if_pos (by simp)]
  exact congrArg Except.ok (zip3Entries_map _ _ _ _)

/-- Every relative path enumerated from a directory is a file of that
directory. -/
theorem enumerated_isLocalFile (hash : List Nat → String) (walk : List WalkEntry)
    (fileDf : List FileEntry)
    (hget : get_files hash (PathInput.dir walk) = .ok fileDf) :
    (fileDf.map (fun e => e.file)).filter (fun f => isLocalFile (PathInput.dir walk) f)
      = fileDf.map (fun e => e.file) := by
  rw [get_files_dir_eq] at hget
  obtain rfl : _ = fileDf := Except.ok.inj hget
  apply List.filter_eq_self.mpr
  intro f hf
  simp only [List.map_map, List.mem_map, Function.comp] at hf
  obtain ⟨e, he, rfl⟩ := hf
  have hew : e ∈ walk := List.mem_of_mem_filter he
  simp only [isLocalFile, List.any_eq_true]
  exact ⟨e, hew, by simp⟩

/-- Every directory removed by the sweep held no remaining file. -/
theorem removeEmptyDirs_sound (remaining : List String) :
    ∀ todo live d, d ∈ removeEmptyDirs remaining todo live →
      remaining.all (fun f => dirnameStr f != d) = true := by
  intro todo
  induction todo with
  | nil =>
      intro live d h
      simp [removeEmptyDirs] at h
  | cons a t ih =>
      intro live d h
      rw [removeEmptyDirs] at h
      split at h
      · next hcond =>
          rcases List.mem_cons.mp h with rfl | hmem
          · exact (Bool.and_eq_true _ _ |>.mp
              ((Bool.and_eq_true _ _ |>.mp hcond).1)).2
          · exact ih _ _ hmem
      · exact ih _ _ h

/-- `wait_for_restore` never extracts anything. -/
theorem wait_for_restore_no_extract (polls : List (Option String)) :
    REv.extract ∉ (wait_for_restore polls).2 := by
  induction polls with
  | nil => simp [wait_for_restore]
  | cons p rest ih =>
      cases p with
      | none => simp [wait_for_restore]
      | some s =>
          rw [wait_for_restore]
          split
          · simp
          · intro hmem
            rcases List.mem_cons.mp hmem with h | h
            · simp at h
            · exact ih h

/-! ## Claim theorems -/

/-- Claim C3: the claim says `get_files` excludes both the system's own
bundle/manifest artifacts and hidden entries.  The artifact exclusion holds,
but hidden entries are *not* excluded: on a directory holding `a.txt`,
`.hidden` and a stale `dhslabarchive.OLDID.tar.gz`, the walk skips only the
artifact and the hidden file is enumerated — contradicting the claim and the
script's own header comment (line 17: files starting with a dot are not to
be included). -/
theorem claim_C3_hidden_entries_not_excluded :
    get_files demoHash (PathInput.dir sampleWalk)
        = .ok [⟨"a.txt", 3, demoHash [1, 2, 3]⟩, ⟨".hidden", 2, demoHash [9, 9]⟩]
      ∧ excludedName "dhslabarchive.OLDID.tar.gz" = true
      ∧ excludedName ".hidden" = false := by
  refine ⟨by decide, by decide, by decide⟩

/-- Claim C4: the build-time integrity check passes exactly when the set of
fingerprints computed from the bundle members equals the set of recorded
fingerprints — set equality, not path-keyed multiset equality: a bundle with
two identical-content files passes against a recorded list holding that
fingerprint only once. -/
theorem claim_C4_build_check_is_set_equality :
    (∀ (hash : List Nat → String) (tar : List TarMember) (md5s : List String),
        test_tarball_integrity hash tar md5s = true ↔
          (∀ x, x ∈ (get_tarball_md5sums hash tar).map (fun e => e.md5sum)
            ↔ x ∈ md5s))
      ∧ test_tarball_integrity demoHash c4DupTar c4Recorded = true
      ∧ ((get_tarball_md5sums demoHash c4DupTar).map (fun e => e.md5sum)).length = 2
      ∧ c4Recorded.length = 1 := by
  refine ⟨?_, by decide, by decide, by decide⟩
  intro hash tar md5s
  simp only [test_tarball_integrity, pySetEq, Bool.and_eq_true, List.all_eq_true,
    decide_eq_true_eq]
  exact ⟨fun h x => ⟨fun hx => h.1 x hx, fun hx => h.2 x hx⟩,
    fun h => ⟨fun x hx => (h x).1 hx, fun x hx => (h x).2 hx⟩⟩

/-- Claim C6: archiving a path that already holds a sidecar with the
overwrite directive is supposed to reuse the prior unique id; instead
line 767 applies `os.path.basename` to the glob result — a list — and dies
with `TypeError` before any id is extracted or any artifact written. -/
theorem claim_C6_overwrite_crashes_before_id_reuse :
    run_archive c9Env false false true false
      = ⟨.error .typeErrorBasenameList, []⟩ := by
  rfl

/-- Claim C7: restoring a DEEP_ARCHIVE object on which no restore was ever
requested (head_object carries no `Restore` field, so
`check_restore_status` returns `None`) is supposed to issue a restore
request; instead line 909 evaluates `'ongoing-request="false"' in None`,
raising `TypeError`, and no restore request is ever issued. -/
theorem claim_C7_fresh_archival_restore_crashes :
    run_restore c7Env
        = (.error .typeErrorInNone, [REv.checkStorageClass, REv.checkRestoreStatus])
      ∧ REv.initiateRestore ∉ (run_restore c7Env).2
      ∧ REv.download ∉ (run_restore c7Env).2 := by
  refine ⟨rfl, by decide, by decide⟩

/-- Claim C2: after the download the whole-bundle fingerprint is supposed to
be recomputed and compared against the manifest's `TarballMD5sum`; instead
line 937 reads the variable `tarball` before its first assignment
(line 944), so the run dies with `UnboundLocalError` and neither the
comparison nor any extraction ever happens. -/
theorem claim_C2_post_download_check_unreachable :
    run_restore c1RestoreEnv
        = (.error .unboundLocalTarball, [REv.checkStorageClass, REv.download])
      ∧ REv.md5Compare ∉ (run_restore c1RestoreEnv).2
      ∧ REv.extract ∉ (run_restore c1RestoreEnv).2 := by
  refine ⟨rfl, by decide, by decide⟩

/-- Claim C8: on a single regular file, `get_files` fills `files` and
`filesizes` with one element each but never appends to `fileMd5sums`
(lines 194-197), so the DataFrame constructor on line 221 raises
`ValueError` instead of returning the claimed one-element list. -/
theorem claim_C8_single_file_enumeration_crashes (hash : List Nat → String)
    (path : String) (size : Nat) (content : List Nat) :
    get_files hash (PathInput.file path size content)
      = .error .valueErrorDataFrame := by
  simp [get_files, mk_dataframe]

/-- Claim C9: archiving a directory that already holds a manifest sidecar,
without force and without overwrite, exits at line 762 with the
duplicate-archive error before any side effect: the trace is empty, so no
bundle and no sidecar are produced and the first archive's artifacts are
untouched. -/
theorem claim_C9_duplicate_guard (env : ArchiveEnv) (tarballFlag keep : Bool)
    (hjson : env.existingJson ≠ []) :
    run_archive env tarballFlag false false keep
      = ⟨.error .exitDuplicate, []⟩ := by
  unfold run_archive
  rw [if_pos ⟨hjson, by simp, by simp⟩]

/-- Witness for C9 at a concrete directory holding a stale sidecar. -/
theorem claim_C9_witness :
    c9Env.existingJson ≠ [] ∧
      run_archive c9Env false false false false
        = ⟨.error .exitDuplicate, []⟩ :=
  ⟨by decide, claim_C9_duplicate_guard c9Env false false (by decide)⟩

/-- Claim C5: when the enumerated aggregate size exceeds the 2 TB ceiling,
`run_archive` exits at line 796, which is strictly before `create_tarball`
on line 803: the outcome is the size-limit error with an empty side-effect
trace, so zero bytes of bundle output exist. -/
theorem claim_C5_size_ceiling_before_build (env : ArchiveEnv)
    (force overwrite keep : Bool) (fileDf : List FileEntry)
    (hguard : env.existingJson = [] ∨ (force = true ∧ overwrite = false))
    (hget : get_files env.hash env.input = .ok fileDf)
    (hsize : 2000000000000 < sumSizes fileDf) :
    run_archive env false force overwrite keep
      = ⟨.error .exitSizeLimit, []⟩ := by
  have hc1 : ¬(env.existingJson ≠ [] ∧ ¬force ∧ ¬overwrite) := by
    rcases hguard with hj | ⟨hf, _⟩
    · exact fun h => h.1 hj
    · exact fun h => h.2.1 (by simp [hf])
  have hc2 : ¬(env.existingJson ≠ [] ∧ overwrite) := by
    rcases hguard with hj | ⟨_, ho⟩
    · exact fun h => h.1 hj
    · exact fun h => by simp [ho] at h
  have hne : ¬(fileDf.length = 0) := by
    intro h0
    rw [List.length_eq_zero] at h0
    subst h0
    simp [sumSizes] at hsize
  unfold run_archive
  rw [if_neg hc1, if_neg hc2, if_neg (by simp : ¬(false = true)), hget]
  dsimp only
  rw [if_neg hne, if_pos hsize]

/-- Witness for C5: a directory holding one file of 2 000 000 000 001
bytes. -/
theorem claim_C5_witness :
    2000000000000 < sumSizes [⟨"big.bin", 2000000000001, demoHash []⟩] ∧
      run_archive c5Env false false false false
        = ⟨.error .exitSizeLimit, []⟩ :=
  ⟨by decide,
    claim_C5_size_ceiling_before_build c5Env false false false
      [⟨"big.bin", 2000000000001, demoHash []⟩] (Or.inl rfl) (by decide)
      (by decide)⟩

/-- Claim C1: the round trip cannot hold on this code.  Whatever the
environment, `run_restore` ends in an error — every branch either exits
earlier or falls through to line 937, where the local variable `tarball`
is read before its first assignment — and the extraction step is never
performed (besides being commented out in the source), so restore never
yields any file set, let alone one matching the archived
(path, fingerprint) pairs. -/
theorem claim_C1_restore_never_yields_files (env : RestoreEnv) :
    (∃ e, (run_restore env).1 = Except.error e)
      ∧ REv.extract ∉ (run_restore env).2 := by
  unfold run_restore
  dsimp only
  repeat' split
  all_goals
    refine ⟨⟨_, rfl⟩, ?_⟩
  all_goals
    simp [List.mem_append, wait_for_restore_no_extract]

/-- Claim C10: a successful non-dry-run archive without the keep flag is
destructive by default.  In both backend modes the run returns the manifest
and its trace is exactly: bundle build, transfer, local-bundle removal,
then one `os.remove` per enumerated source file — every enumerated file,
strictly after the transfer — then the empty-subdirectory sweep and the
sidecar write.  The sweep only removes directories holding no remaining
file. -/
theorem claim_C10_default_deletes_sources (env : ArchiveEnv)
    (force overwrite : Bool) (fileDf : List FileEntry)
    (hjson : env.existingJson = [])
    (hget : get_files env.hash env.input = .ok fileDf)
    (hne : fileDf ≠ [])
    (hsize : sumSizes fileDf ≤ 2000000000000)
    (hint : test_tarball_integrity env.hash
        (create_tarball env.input (fileDf.map (fun e => e.file)))
        (fileDf.map (fun e => e.md5sum)) = true) :
    (env.mode = "glacier" → env.s3 = ⟨true, false, true⟩ →
      run_archive env false force overwrite false =
        ⟨.ok ⟨env.freshId, env.timestamp, env.mode,
            "dhslabarchive." ++ env.freshId ++ ".tar.gz", env.filepathAbs,
            env.archivepath, fileDf.map (fun e => e.file),
            fileDf.map (fun e => e.size), fileDf.map (fun e => e.md5sum),
            env.hashTarball (create_tarball env.input (fileDf.map (fun e => e.file))),
            env.username⟩,
          Ev.createTarball (create_tarball env.input (fileDf.map (fun e => e.file)))
            :: Ev.uploadToS3 (some true) :: Ev.removeTarball
            :: ((fileDf.map (fun e => e.file)).map Ev.removeFile
                ++ (removeEmptyDirs
                      (remainingAfter env.input (fileDf.map (fun e => e.file)))
                      env.dirs env.dirs).map Ev.rmdir
                ++ [Ev.writeJson ("dhslabarchive." ++ env.freshId ++ ".json")])⟩)
    ∧ (env.mode = "ris_archive" → env.globusOk = true →
      run_archive env false force overwrite false =
        ⟨.ok ⟨env.freshId, env.timestamp, env.mode,
            "dhslabarchive." ++ env.freshId ++ ".tar.gz", env.filepathAbs,
            env.archivepath, fileDf.map (fun e => e.file),
            fileDf.map (fun e => e.size), fileDf.map (fun e => e.md5sum),
            env.hashTarball (create_tarball env.input (fileDf.map (fun e => e.file))),
            env.username⟩,
          Ev.createTarball (create_tarball env.input (fileDf.map (fun e => e.file)))
            :: Ev.globusTransfer :: Ev.removeTarball
            :: ((fileDf.map (fun e => e.file)).map Ev.removeFile
                ++ (removeEmptyDirs
                      (remainingAfter env.input (fileDf.map (fun e => e.file)))
                      env.dirs env.dirs).map Ev.rmdir
                ++ [Ev.writeJson ("dhslabarchive." ++ env.freshId ++ ".json")])⟩)
    ∧ (∀ remaining todo live d, d ∈ removeEmptyDirs remaining todo live →
        remaining.all (fun f => dirnameStr f != d) = true) := by
  obtain ⟨walk, hin⟩ : ∃ w, env.input = PathInput.dir w := by
    cases h : env.input with
    | file p n c => rw [h] at hget; simp [get_files, mk_dataframe] at hget
    | dir w => exact ⟨w, rfl⟩
    | invalid => rw [h] at hget; simp [get_files] at hget
  have hfilter : (fileDf.map (fun e => e.file)).filter
        (fun f => isLocalFile env.input f)
      = fileDf.map (fun e => e.file) := by
    rw [hin]
    exact enumerated_isLocalFile env.hash walk fileDf (hin ▸ hget)
  refine ⟨?_, ?_, removeEmptyDirs_sound⟩
  · intro hm hs3
    unfold run_archive
    rw [if_neg (fun h => h.1 hjson), if_neg (fun h => h.1 hjson),
      if_neg (by simp : ¬(false = true)), hget]
    dsimp only
    rw [if_neg (by simpa [List.length_eq_zero] using hne),
      if_neg (not_lt.mpr hsize)]
    unfold run_archive_rest transfer_phase
    rw [hm, hs3]
    dsimp only
    rw [hint]
    simp [transfer_to_s3, hfilter]
  · intro hm hglobus
    unfold run_archive
    rw [if_neg (fun h => h.1 hjson), if_neg (fun h => h.1 hjson),
      if_neg (by simp : ¬(false = true)), hget]
    dsimp only
    rw [if_neg (by simpa [List.length_eq_zero] using hne),
      if_neg (not_lt.mpr hsize)]
    unfold run_archive_rest transfer_phase
    rw [hm, hglobus]
    dsimp only
    rw [hint]
    simp [hfilter]

/-- Witness for C10: archiving a one-file directory to glacier with default
flags uploads the bundle and then removes the source file. -/
theorem claim_C10_witness :
    get_files c10Env.hash c10Env.input = .ok [⟨"a.txt", 3, demoHash [1, 2, 3]⟩] ∧
      run_archive c10Env false false false false =
        ⟨.ok c1Dict,
          [Ev.createTarball [⟨"a.txt", 3, [1, 2, 3], true⟩],
            Ev.uploadToS3 (some true), Ev.removeTarball,
            Ev.removeFile "a.txt",
            Ev.writeJson "dhslabarchive.Id0123456789abcdefgh.json"]⟩ :=
  ⟨rfl,
    (claim_C10_default_deletes_sources c10Env false false
        [⟨"a.txt", 3, demoHash [1, 2, 3]⟩] rfl rfl (by decide) (by decide)
        (by decide)).1 rfl rfl⟩

end Slarchive
